import Mathlib

/-!
Verification development for the weakCNLSG estimator (pystoned/weakCNLSG.py)
and the inner first-pass model builder (pystoned2/utils/weakCNLSxG1.py).

The Python source is shallowly embedded: numpy matrices become functions
`Nat → Nat → ℚ` together with explicit dimensions, in-place mutation becomes
explicit state passing, Python exceptions become `Except PyErr`, and local
variables that may be read before assignment (Python `UnboundLocalError`)
become `Option` values.
-/

/-- A two-dimensional numpy array of rationals, as a total function; only the
entries below the explicit dimensions carried alongside are meaningful. -/
abbrev Mat : Type := Nat → Nat → ℚ

/-- Pointwise update `m[i, j] = v` of a matrix. -/
def updMat (m : Mat) (i j : Nat) (v : ℚ) : Mat :=
  fun a c => if a = i ∧ c = j then v else m a c

/-- Python runtime errors relevant to the embedded code. -/
inductive PyErr : Type where
  | typeError : PyErr
  | unboundLocal : PyErr
  | nameError : PyErr
  | valueError : String → PyErr
  | notYetSolved : PyErr
  | noContextual : PyErr
  deriving DecidableEq, Repr

/-- Modelled from the spec: the constant module is not part of the shown
source; the regime flags are string constants, one per recognized value of
each of the three configuration axes (error-term form, frontier direction,
returns to scale). -/
def CET_ADDI : String := "addi"

/-- Multiplicative composite error term flag. -/
def CET_MULT : String := "mult"

/-- Production frontier flag. -/
def FUN_PROD : String := "prod"

/-- Cost frontier flag. -/
def FUN_COST : String := "cost"

/-- Variable returns to scale flag. -/
def RTS_VRS : String := "vrs"

/-- Constant returns to scale flag. -/
def RTS_CRS : String := "crs"

/-- Modelled from the spec: local-vs-remote solve target constant. -/
def OPT_LOCAL : String := "local"

/-- Modelled from the spec: default solver choice constant. -/
def OPT_DEFAULT : String := "default"

/-- `np.sum(u[:m] * v[:m])`: dot product of the first `m` entries. -/
def dot (u v : Nat → ℚ) (m : Nat) : ℚ :=
  ((List.range m).map (fun t => u t * v t)).sum

/-- Arguments available to `weakCNLSG.__convergence_test` /
`__convergence_test_weak`: the data attributes `x`, `b` with their row count
`n = len(x)` and column counts `k = x.shape[1]`, `l = b.shape[1]`, and the
fitted parameters `alpha`, `beta`, `delta` passed in by `optimize`. -/
structure ScanArgs : Type where
  n : Nat
  k : Nat
  l : Nat
  x : Mat
  b : Mat
  alpha : Nat → ℚ
  beta : Mat
  delta : Mat

/-- The pairwise score written to `active2[i, j]` in the `RTS_VRS`/`FUN_PROD`
branch of `__convergence_test`. -/
def scoreVrsProd (A : ScanArgs) (i j : Nat) : ℚ :=
  A.alpha i + dot (A.beta i) (A.x i) A.k + dot (A.delta i) (A.b i) A.l
    - A.alpha j - dot (A.beta j) (A.x i) A.k - dot (A.delta j) (A.b i) A.l

/-- The pairwise score of the `RTS_VRS`/`FUN_COST` branch. -/
def scoreVrsCost (A : ScanArgs) (i j : Nat) : ℚ :=
  - A.alpha i - dot (A.beta i) (A.x i) A.k - dot (A.delta i) (A.b i) A.l
    + A.alpha j + dot (A.beta j) (A.x i) A.k + dot (A.delta j) (A.b i) A.l

/-- The pairwise score of the `RTS_CRS`/`FUN_PROD` branch. -/
def scoreCrsProd (A : ScanArgs) (i j : Nat) : ℚ :=
  dot (A.beta i) (A.x i) A.k + dot (A.delta i) (A.b i) A.l
    - dot (A.beta j) (A.x i) A.k - dot (A.delta j) (A.b i) A.l

/-- The pairwise score of the `RTS_CRS`/`FUN_COST` branch. -/
def scoreCrsCost (A : ScanArgs) (i j : Nat) : ℚ :=
  - dot (A.beta i) (A.x i) A.k - dot (A.delta i) (A.b i) A.l
    + dot (A.beta j) (A.x i) A.k + dot (A.delta j) (A.b i) A.l

/-- The pairwise score written to `activeweak2[i, j]` in the
`RTS_VRS`/`FUN_PROD` branch of `__convergence_test_weak`. -/
def scoreWeakVrsProd (A : ScanArgs) (i j : Nat) : ℚ :=
  - A.alpha j - dot (A.beta j) (A.x i) A.k

/-- Weak-scan score of the `RTS_VRS`/`FUN_COST` branch. -/
def scoreWeakVrsCost (A : ScanArgs) (i j : Nat) : ℚ :=
  A.alpha j + dot (A.beta j) (A.x i) A.k

/-- Weak-scan score of the `RTS_CRS`/`FUN_PROD` branch. -/
def scoreWeakCrsProd (A : ScanArgs) (i j : Nat) : ℚ :=
  - dot (A.beta j) (A.x i) A.k

/-- Weak-scan score of the `RTS_CRS`/`FUN_COST` branch. -/
def scoreWeakCrsCost (A : ScanArgs) (i j : Nat) : ℚ :=
  dot (A.beta j) (A.x i) A.k

/-- First inner loop of one row `i` of the scan: for `j in range(n)` write
`active2[i, j] = s i j` and keep `activetmp = max` of the scores seen so far,
starting from `0.0`. Returns the updated matrix and `activetmp`. -/
def scanRow (s : Nat → Nat → ℚ) (n i : Nat) (a2 : Mat) : Mat × ℚ :=
  (List.range n).foldl
    (fun p j =>
      let v := s i j
      (updMat p.1 i j v, if v > p.2 then v else p.2))
    (a2, 0)

/-- The value `activetmp` holds after the first inner loop of row `i`:
`max(0, max over j < n of s i j)`, computed with the source's fold shape. -/
def rowStat (s : Nat → Nat → ℚ) (n i : Nat) : ℚ :=
  (List.range n).foldl (fun acc j => if s i j > acc then s i j else acc) 0

/-- Second inner loop of row `i`: for `j in range(n)`, if
`active2[i, j] >= activetmp and activetmp > 0` then `active[i, j] = 1`. -/
def markRow (n i : Nat) (a2 : Mat) (activetmp : ℚ) (ac : Mat) : Mat :=
  (List.range n).foldl
    (fun m j => if a2 i j ≥ activetmp ∧ activetmp > 0 then updMat m i j 1 else m)
    ac

/-- The first `m` iterations of the outer `for i in range(n)` loop of a scan,
threading `(active, active2, activetmp, activetmp1)`; `activetmp` is `none`
before its first assignment (it is a Python local read at the `return`
statement). -/
def convLoopAux (s : Nat → Nat → ℚ) (n m : Nat) (ac a2 : Mat) :
    Mat × Mat × Option ℚ × ℚ :=
  (List.range m).foldl
    (fun st i =>
      let r := scanRow s n i st.2.1
      let ac' := markRow n i r.1 r.2 st.1
      (ac', r.1, some r.2, if r.2 > st.2.2.2 then r.2 else st.2.2.2))
    (ac, a2, none, 0)

/-- The full outer loop of a scan. -/
def convLoop (s : Nat → Nat → ℚ) (n : Nat) (ac a2 : Mat) :
    Mat × Mat × Option ℚ × ℚ :=
  convLoopAux s n n ac a2

/-- One regime branch of a scan followed by the shared `return activetmp`
statement: an unassigned `activetmp` is Python's `UnboundLocalError`. -/
def runScan (s : Nat → Nat → ℚ) (n : Nat) (ac a2 : Mat) :
    Except PyErr (ℚ × Mat × Mat) :=
  match (convLoop s n ac a2).2.2.1 with
  | some v => .ok (v, (convLoop s n ac a2).1, (convLoop s n ac a2).2.1)
  | none => .error .unboundLocal

/-- The four mutable matrices of a `weakCNLSG` instance: `active`, `active2`
(concavity) and `activeweak`, `activeweak2` (weak disposability). -/
structure GMats : Type where
  active : Mat
  active2 : Mat
  activeweak : Mat
  activeweak2 : Mat

/-- One recognized branch of `__convergence_test`: run the scan loops with
the branch's score over `active` / `active2` and write the results back. -/
def concavBranch (s : Nat → Nat → ℚ) (A : ScanArgs) (m : GMats) :
    Except PyErr (ℚ × GMats) :=
  match runScan s A.n m.active m.active2 with
  | .ok (v, ac, a2) => .ok (v, { m with active := ac, active2 := a2 })
  | .error e => .error e

/-- One recognized branch of `__convergence_test_weak`: same loops over
`activeweak` / `activeweak2`. -/
def weakBranch (s : Nat → Nat → ℚ) (A : ScanArgs) (m : GMats) :
    Except PyErr (ℚ × GMats) :=
  match runScan s A.n m.activeweak m.activeweak2 with
  | .ok (v, ac, a2) => .ok (v, { m with activeweak := ac, activeweak2 := a2 })
  | .error e => .error e

/-- `weakCNLSG.__convergence_test`: dispatch on `(rts, fun)` exactly as the
source's `if`/`elif` chain, run the corresponding scan over `active2` /
`active`, and return `activetmp` (the value left by the LAST outer-loop
iteration, not the running maximum `activetmp1`). -/
def convergence_test (rts fn : String) (A : ScanArgs) (m : GMats) :
    Except PyErr (ℚ × GMats) :=
  if rts = RTS_VRS ∧ fn = FUN_PROD then concavBranch (scoreVrsProd A) A m
  else if rts = RTS_VRS ∧ fn = FUN_COST then concavBranch (scoreVrsCost A) A m
  else if rts = RTS_CRS ∧ fn = FUN_PROD then concavBranch (scoreCrsProd A) A m
  else if rts = RTS_CRS ∧ fn = FUN_COST then concavBranch (scoreCrsCost A) A m
  else
    -- no branch taken: `activetmp` was never assigned, `return activetmp`
    -- raises UnboundLocalError
    .error .unboundLocal

/-- `weakCNLSG.__convergence_test_weak`: same loop shape over the
`activeweak2` / `activeweak` matrices with the weak-disposability scores. -/
def convergence_test_weak (rts fn : String) (A : ScanArgs) (m : GMats) :
    Except PyErr (ℚ × GMats) :=
  if rts = RTS_VRS ∧ fn = FUN_PROD then weakBranch (scoreWeakVrsProd A) A m
  else if rts = RTS_VRS ∧ fn = FUN_COST then weakBranch (scoreWeakVrsCost A) A m
  else if rts = RTS_CRS ∧ fn = FUN_PROD then weakBranch (scoreWeakCrsProd A) A m
  else if rts = RTS_CRS ∧ fn = FUN_COST then weakBranch (scoreWeakCrsCost A) A m
  else
    .error .unboundLocal

/-- The score formula the dispatch of `__convergence_test` selects (defaults
to the zero score outside the four recognized branches, where the scan never
runs). -/
def concavScore (rts fn : String) (A : ScanArgs) : Nat → Nat → ℚ :=
  if rts = RTS_VRS ∧ fn = FUN_PROD then scoreVrsProd A
  else if rts = RTS_VRS ∧ fn = FUN_COST then scoreVrsCost A
  else if rts = RTS_CRS ∧ fn = FUN_PROD then scoreCrsProd A
  else if rts = RTS_CRS ∧ fn = FUN_COST then scoreCrsCost A
  else fun _ _ => 0

/-- The score formula the dispatch of `__convergence_test_weak` selects. -/
def weakScore (rts fn : String) (A : ScanArgs) : Nat → Nat → ℚ :=
  if rts = RTS_VRS ∧ fn = FUN_PROD then scoreWeakVrsProd A
  else if rts = RTS_VRS ∧ fn = FUN_COST then scoreWeakVrsCost A
  else if rts = RTS_CRS ∧ fn = FUN_PROD then scoreWeakCrsProd A
  else if rts = RTS_CRS ∧ fn = FUN_COST then scoreWeakCrsCost A
  else fun _ _ => 0

/-- Follows the spec's words, for comparison with the source's return value:
"the largest violation found across all rows", i.e. the maximum over all
ordered pairs `(i, j)` of the pairwise violation score, and `0.0` if every
score is non-positive. -/
def specConvergenceStat (s : Nat → Nat → ℚ) (n : Nat) : ℚ :=
  (List.range n).foldl
    (fun acc i =>
      (List.range n).foldl (fun a j => if a < s i j then s i j else a) acc) 0

/-- Projection keeping only the returned statistic of a scan. -/
def statOf (r : Except PyErr (ℚ × GMats)) : Option ℚ :=
  match r with
  | .ok (v, _) => some v
  | .error _ => none

/-- Projection keeping only the updated matrices of a scan. -/
def matsOf (r : Except PyErr (ℚ × GMats)) : Option GMats :=
  match r with
  | .ok (_, m) => some m
  | .error _ => none

/-- Fitted parameters delivered by one solve of the inner model (the solve
oracle is external: `weakCNLSG1`/`weakCNLSZG1`/`...G2` and their solver calls
are outside the shown source and outside the spec's scope). -/
structure Fitted : Type where
  alpha : Nat → ℚ
  beta : Mat
  delta : Mat

/-- Package the scan arguments for one evaluation of the `while` condition of
`weakCNLSG.optimize` from the data and the currently fitted parameters. -/
def mkScanArgs (n k l : Nat) (x b : Mat) (p : Fitted) : ScanArgs :=
  { n := n, k := k, l := l, x := x, b := b,
    alpha := p.alpha, beta := p.beta, delta := p.delta }

/-- One evaluation of the loop condition
`self.__convergence_test(...) > 0.0001 or self.__convergence_test_weak(...) > 0.0001`
of `weakCNLSG.optimize`, with Python's short-circuit `or`: the weak scan runs
only when the first statistic does not exceed the tolerance. Returns
(loop-continues?, weak-scan-was-evaluated?, updated matrices). -/
def loopCond (rts fn : String) (A : ScanArgs) (m : GMats) :
    Except PyErr (Bool × Bool × GMats) :=
  match convergence_test rts fn A m with
  | .error e => .error e
  | .ok (v1, m1) =>
    if v1 > 1 / 10000 then .ok (true, false, m1)
    else
      match convergence_test_weak rts fn A m1 with
      | .error e => .error e
      | .ok (v2, m2) => .ok (decide (v2 > 1 / 10000), true, m2)

/-- The matrix-state effect of one evaluation of the loop condition inside
`optimize`, with the fitted parameters of iteration `t` supplied by the solve
oracle; on a Python exception the matrices keep their prior contents (the
scans mutate nothing before the failing statement). -/
def optStep (rts fn : String) (n k l : Nat) (x b : Mat) (oracle : Nat → Fitted)
    (t : Nat) (m : GMats) : GMats :=
  match loopCond rts fn (mkScanArgs n k l x b (oracle t)) m with
  | .ok (_, _, m') => m'
  | .error _ => m

/-- The matrices after `t` evaluations of the loop condition of `optimize`,
starting from the matrices `m0` the constructor would initialize. -/
def optMats (rts fn : String) (n k l : Nat) (x b : Mat) (oracle : Nat → Fitted)
    (m0 : GMats) : Nat → GMats
  | 0 => m0
  | t + 1 => optStep rts fn n k l x b oracle t (optMats rts fn n k l x b oracle m0 t)

/-- A numpy 2-d array value (contents only matter for shape checks here). -/
abbrev NpArr : Type := List (List ℚ)

/-- A Python value passed positionally to a numpy stacking call: either one
array or a tuple of arrays. -/
inductive PyVal : Type where
  | arr : NpArr → PyVal
  | tup : List NpArr → PyVal

/-- Row-wise concatenation used to model column stacking; the exact stacked
contents are never relied upon by the claims under verification. -/
def stackCols (ts : List NpArr) : NpArr :=
  ts.foldr (fun a acc => if acc.isEmpty then a else a.zipWith (· ++ ·) acc) []

/-- Body of `numpy.column_stack(tup)`: iterates its single argument (a tuple
of arrays, or the rows of one array) and stacks the members as columns. -/
def np_column_stack (tup : PyVal) : NpArr :=
  match tup with
  | .tup ts => stackCols ts
  | .arr a => stackCols (a.map fun r => [r])

/-- A Python call of `numpy.column_stack` with the given positional argument
list: the function has exactly one positional parameter `tup`, so any other
arity raises `TypeError` before the body runs. -/
def np_column_stack_call (args : List PyVal) : Except PyErr NpArr :=
  match args with
  | [tup] => .ok (np_column_stack tup)
  | _ => .error .typeError

/-- Modelled from the spec: `tools.assert_valid_wp_data` is not part of the
shown source; per the spec, data is shape-validated and invalid shapes or
missing values fail before any model is built. -/
def assert_valid_wp_data (y x b : NpArr) (z : Option NpArr) :
    Except PyErr (NpArr × NpArr × NpArr × Option NpArr) :=
  if y.length = x.length ∧ x.length = b.length ∧
      (∀ zz ∈ z.toList, zz.length = x.length) then
    .ok (y, x, b, z)
  else
    .error (.valueError "invalid data shape")

/-- The attribute state a successfully finished `weakCNLSG.__init__` would
leave behind. -/
structure WeakCNLSGInit : Type where
  cutactive : NpArr
  y : NpArr
  x : NpArr
  b : NpArr
  z : Option NpArr
  cet : String
  fn : String
  rts : String
  active : Mat
  active2 : Mat
  activeweak : Mat
  activeweak2 : Mat
  optimization_status : Nat
  problem_status : Nat

/-- `weakCNLSG.__init__`, statement by statement: the first statement is
`self.cutactive = sweet.sweet(np.column_stack(x, b))` — a two-positional-
argument call of the one-parameter `np.column_stack` — and only afterwards
does `tools.assert_valid_wp_data(y, x, b, z)` run. `sweet.sweet` is outside
the shown source; it is never reached, and is modelled as the identity
transformation of its stacked input into a candidate matrix. -/
def weakCNLSG_init (y x b : NpArr) (z : Option NpArr) (cet fn rts : String) :
    Except PyErr WeakCNLSGInit := do
  let stacked ← np_column_stack_call [.arr x, .arr b]
  let cut := stacked
  let (y', x', b', z') ← assert_valid_wp_data y x b z
  .ok { cutactive := cut, y := y', x := x', b := b', z := z',
        cet := cet, fn := fn, rts := rts,
        active := fun _ _ => 0, active2 := fun _ _ => 0,
        activeweak := fun _ _ => 0, activeweak2 := fun _ _ => 0,
        optimization_status := 0, problem_status := 0 }

/-- Modelled from the spec: `tools.assert_optimized` is not part of the shown
source; per the spec, every accessor fails with a "not yet solved" error when
called before a successful `optimize`, i.e. while the optimization status is
still the constructor's `0`. -/
def assert_optimized (status : Nat) : Except PyErr Unit :=
  if status = 0 then .error .notYetSolved else .ok ()

/-- Modelled from the spec: `tools.assert_contextual_variable` is not part of
the shown source; per the spec, contextual-coefficient access fails with a
"no contextual variable" error when `z` was never supplied. -/
def assert_contextual_variable (z : Option NpArr) : Except PyErr Unit :=
  match z with
  | none => .error .noContextual
  | some _ => .ok ()

/-- Modelled from the spec: `tools.assert_various_return_to_scale` is not part
of the shown source; the intercept accessor is regime-specific (CRS has no
intercept), and per the spec regime-specific accessors fail when the
corresponding configuration was never supplied. -/
def assert_various_return_to_scale (rts : String) : Except PyErr Unit :=
  if rts = RTS_CRS then .error (.valueError "constant returns to scale") else .ok ()

/-- Modelled from the spec: `tools.assert_undesirable_output` is not part of
the shown source; `weakCNLSG` always supplies the undesirable outputs `b`, so
the assertion never fires for this class and is modelled as a no-op check. -/
def assert_undesirable_output (_b : NpArr) : Except PyErr Unit :=
  .ok ()

/-- The run state of a `weakCNLSG` instance as the accessors see it: the
configuration, the status flag, and the variable values held by the stored
pyomo model after the last solve. -/
structure WeakCNLSGRun : Type where
  optimization_status : Nat
  rts : String
  cet : String
  z : Option NpArr
  b : NpArr
  y : List ℚ
  alphaVal : List ℚ
  betaVal : List (List ℚ)
  deltaVal : List (List ℚ)
  epsilonVal : List ℚ
  lamdaVal : List ℚ
  frontierVal : List ℚ

/-- `weakCNLSG.get_alpha`. -/
def get_alpha (st : WeakCNLSGRun) : Except PyErr (List ℚ) := do
  let _ ← assert_optimized st.optimization_status
  let _ ← assert_various_return_to_scale st.rts
  .ok st.alphaVal

/-- `weakCNLSG.get_beta` (the pandas pivot reconstitutes the value matrix of
the `beta` variable, embedded here as the stored value matrix itself). -/
def get_beta (st : WeakCNLSGRun) : Except PyErr (List (List ℚ)) := do
  let _ ← assert_optimized st.optimization_status
  .ok st.betaVal

/-- `weakCNLSG.get_residual`. -/
def get_residual (st : WeakCNLSGRun) : Except PyErr (List ℚ) := do
  let _ ← assert_optimized st.optimization_status
  .ok st.epsilonVal

/-- `weakCNLSG.get_lamda`. -/
def get_lamda (st : WeakCNLSGRun) : Except PyErr (List ℚ) := do
  let _ ← assert_optimized st.optimization_status
  let _ ← assert_contextual_variable st.z
  .ok st.lamdaVal

/-- `weakCNLSG.get_delta`. -/
def get_delta (st : WeakCNLSGRun) : Except PyErr (List (List ℚ)) := do
  let _ ← assert_optimized st.optimization_status
  let _ ← assert_undesirable_output st.b
  .ok st.deltaVal

/-- `weakCNLSG.get_frontier`; `expFn` stands for `np.exp` (transcendental, so
supplied as a parameter of the embedding), and the local `frontier` is unbound
when no branch of the `if`/`elif` chain matches. -/
def get_frontier (expFn : ℚ → ℚ) (st : WeakCNLSGRun) : Except PyErr (List ℚ) := do
  let _ ← assert_optimized st.optimization_status
  let frontier : Option (List ℚ) :=
    if st.cet = CET_MULT ∧ st.z = none then
      some (st.frontierVal.map (· + 1))
    else if st.cet = CET_MULT ∧ st.z ≠ none then
      -- y / exp(residual + lamda * z[:, 0]) - 1
      some (st.y.zipWith (fun yv e => yv / expFn e - 1)
        ((st.epsilonVal.zip st.lamdaVal).zipWith
          (fun p zv => p.1 + p.2 * zv)
          ((st.z.getD []).map (fun row => row.headD 0))))
    else if st.cet = CET_ADDI then
      some (st.y.zipWith (fun yv e => yv - e) st.epsilonVal)
    else none
  match frontier with
  | some f => .ok f
  | none => .error .unboundLocal

/-- An assignment of values to the decision variables of the inner
`weakCNLSxG1` pyomo model. -/
structure Assign : Type where
  alpha : Nat → ℚ
  delta : Mat
  gamma : Mat
  epsilon : Nat → ℚ
  frontier : Nat → ℚ

/-- A constraint value returned by one invocation of a pyomo rule. -/
inductive CVal : Type where
  | sat : (Assign → Bool) → CVal
  | logForm : CVal
  | skip : CVal

/-- A pyomo constraint rule as defined in the source: a Python function taking
the model plus one index argument, or the model plus two index arguments. -/
inductive PyRule : Type where
  | unary : (Nat → Except PyErr CVal) → PyRule
  | binary : (Nat → Nat → Except PyErr CVal) → PyRule

/-- Pyomo's invocation of a rule at one index tuple of an indexed constraint:
each index component is passed as a separate positional argument, so a rule
whose arity does not match the declared index dimension raises `TypeError`. -/
def applyRule (r : PyRule) (idx : List Nat) : Except PyErr CVal :=
  match r, idx with
  | .unary f, [i] => f i
  | .binary f, [i, h] => f i h
  | _, _ => .error .typeError

/-- Index tuples of a constraint declared over the single set `I`. -/
def oneDimIdx (n : Nat) : List (List Nat) :=
  (List.range n).map (fun i => [i])

/-- Index tuples of a constraint declared over `I × I`, in pyomo's row-major
iteration order. -/
def twoDimIdx (n : Nat) : List (List Nat) :=
  (List.range n).flatMap (fun i => (List.range n).map (fun h => [i, h]))

/-- Construction of one indexed constraint block on a concrete model: the rule
is invoked at every index tuple in order, and the first Python error aborts
the construction. -/
def buildBlock (r : PyRule) (idx : List (List Nat)) : Except PyErr (List CVal) :=
  idx.mapM (applyRule r)

/-- `Set.nextw` on `I = range(n)`: the cyclic next element. -/
def nextw (n i : Nat) : Nat := (i + 1) % n

/-- `sum(v[j] for j in range(m))`. -/
def sumRange (v : Nat → ℚ) (m : Nat) : ℚ :=
  ((List.range m).map v).sum

/-- The data attributes of a `weakCNLSxG1` instance. The source indexes
`self.x` both as a scalar per unit (regression rule) and as a row per unit
(Afriat and disposability rules); both views are carried. -/
structure XG1Data : Type where
  n : Nat
  dimJ : Nat
  dimL : Nat
  xval : Nat → ℚ
  x : Mat
  y : Mat
  b : Mat
  cutactive : Mat

/-- `weakCNLSxG1.__objective_rule`: sum of squared residuals. -/
def objective_rule (d : XG1Data) : Assign → ℚ :=
  fun m => sumRange (fun i => m.epsilon i ^ 2) d.n

/-- `weakCNLSxG1.__regression_rule`: factory returning the proper regression
rule, raising `ValueError("Undefined model parameters.")` when the error-term
or returns-to-scale flag matches no branch. -/
def regression_rule (cet rts : String) (d : XG1Data) : Except PyErr PyRule :=
  if cet = CET_ADDI then
    if rts = RTS_VRS then
      .ok (.unary fun i => .ok (.sat fun m =>
        decide (d.xval i = - m.alpha i
          + dot (m.gamma i) (d.y i) d.dimJ
          - dot (m.delta i) (d.b i) d.dimL
          - m.epsilon i)))
    else if rts = RTS_CRS then
      .ok (.unary fun i => .ok (.sat fun m =>
        decide (d.xval i = dot (m.gamma i) (d.y i) d.dimJ
          - dot (m.delta i) (d.b i) d.dimL
          - m.epsilon i)))
    else .error (.valueError "Undefined model parameters.")
  else if cet = CET_MULT then
    -- log(x[i]) == -log(frontier[i] + 1) - epsilon[i], kept symbolic
    .ok (.unary fun _i => .ok .logForm)
  else .error (.valueError "Undefined model parameters.")

/-- `weakCNLSxG1.__log_rule`: factory for the log-transformed regression
constraint of the multiplicative regime. -/
def log_rule (cet rts : String) (d : XG1Data) : Except PyErr PyRule :=
  if cet = CET_MULT then
    if rts = RTS_VRS then
      .ok (.unary fun i => .ok (.sat fun m =>
        decide (m.frontier i = m.alpha i - dot (m.gamma i) (d.y i) d.dimJ
          + dot (m.delta i) (d.b i) d.dimL - 1)))
    else if rts = RTS_CRS then
      .ok (.unary fun i => .ok (.sat fun m =>
        decide (m.frontier i = - dot (m.gamma i) (d.y i) d.dimJ
          + dot (m.delta i) (d.b i) d.dimL - 1)))
    else .error (.valueError "Undefined model parameters.")
  else .error (.valueError "Undefined model parameters.")

/-- The comparison operator selected by `fun`: `__le__` for production,
`__ge__` for cost, and an unassigned local otherwise (reading it inside the
returned closure raises `NameError`). -/
def funOperator (fn : String) : Option (ℚ → ℚ → Bool) :=
  if fn = FUN_PROD then some (fun a c => decide (a ≤ c))
  else if fn = FUN_COST then some (fun a c => decide (c ≤ a))
  else none

/-- `weakCNLSxG1.__afriat_rule`: factory for the elementary Afriat constraint
against the cyclic-next unit. -/
def afriat_rule (fn rts : String) (d : XG1Data) : Except PyErr PyRule :=
  let op := funOperator fn
  if rts = RTS_VRS then
    .ok (.unary fun i =>
      match op with
      | some cmp => .ok (.sat fun m => cmp
          (m.alpha i + dot (m.delta i) (d.b i) d.dimL
            - dot (m.gamma i) (d.y i) d.dimJ)
          (m.alpha (nextw d.n i) + dot (m.delta (nextw d.n i)) (d.x i) d.dimL
            - dot (m.gamma (nextw d.n i)) (d.y i) d.dimJ))
      | none => .error .nameError)
  else if rts = RTS_CRS then
    .ok (.unary fun i =>
      match op with
      | some cmp => .ok (.sat fun m => cmp
          (dot (m.delta i) (d.b i) d.dimL - dot (m.gamma i) (d.y i) d.dimJ)
          (dot (m.delta (nextw d.n i)) (d.x i) d.dimL
            - dot (m.gamma (nextw d.n i)) (d.y i) d.dimJ))
      | none => .error .nameError)
  else .error (.valueError "Undefined model parameters.")

/-- `weakCNLSxG1.__disposability_rule`: factory for the weak-disposability
rule. Note the returned rule takes a single unit index, and its body relates
the intercept `alpha` of the cyclic-next unit to the sum of unit `i`'s own
inputs (no undesirable-output coefficient appears in it). -/
def disposability_rule (rts : String) (d : XG1Data) : Except PyErr PyRule :=
  if rts = RTS_VRS then
    .ok (.unary fun i => .ok (.sat fun m =>
      decide (0 ≤ m.alpha (nextw d.n i) + sumRange (d.x i) d.dimJ)))
  else if rts = RTS_CRS then
    .ok (.unary fun i => .ok (.sat fun _m =>
      decide (0 ≤ sumRange (d.x i) d.dimJ)))
  else .error (.valueError "Undefined model parameters.")

/-- `weakCNLSxG1.__sweet_rule`: factory for the cutting-plane ("sweet spot")
constraints, gated by the candidate matrix and skipping self-pairs. -/
def sweet_rule (fn rts : String) (d : XG1Data) : Except PyErr PyRule :=
  let op := funOperator fn
  if rts = RTS_VRS then
    .ok (.binary fun i h =>
      if d.cutactive i h ≠ 0 then
        if i = h then .ok .skip
        else
          match op with
          | some cmp => .ok (.sat fun m => cmp
              (m.alpha i - dot (m.gamma i) (d.y i) d.dimJ
                + dot (m.delta i) (d.b i) d.dimL)
              (m.alpha h - dot (m.gamma h) (d.y i) d.dimJ
                + dot (m.delta h) (d.b i) d.dimL))
          | none => .error .nameError
      else .ok .skip)
  else if rts = RTS_CRS then
    .ok (.binary fun i h =>
      if d.cutactive i h ≠ 0 then
        if i = h then .ok .skip
        else
          match op with
          | some cmp => .ok (.sat fun m => cmp
              (- dot (m.gamma i) (d.y i) d.dimJ
                + dot (m.delta i) (d.b i) d.dimL)
              (- dot (m.gamma h) (d.y i) d.dimJ
                + dot (m.delta h) (d.b i) d.dimL))
          | none => .error .nameError
      else .ok .skip)
  else .error (.valueError "Undefined model parameters.")

/-- The construction stages of `weakCNLSxG1.__init__`, in source order: the
index sets, then the decision variables, then the objective, then each
constraint family. -/
inductive BuildStage : Type where
  | sets : BuildStage
  | vars : BuildStage
  | objective : BuildStage
  | regression : BuildStage
  | logc : BuildStage
  | afriat : BuildStage
  | disposability : BuildStage
  | sweet : BuildStage
  deriving DecidableEq, Repr

/-- The concrete model a successfully finished `weakCNLSxG1.__init__` would
hold. -/
structure BuiltModel : Type where
  objective : Assign → ℚ
  regressionCons : List CVal
  logCons : List CVal
  afriatCons : List CVal
  disposabilityCons : List CVal
  sweetCons : List CVal

/-- Tag a Python error with the stage it occurred in and the stages already
completed before it. -/
def atStage (done : List BuildStage) (st : BuildStage) :
    Except PyErr α → Except (List BuildStage × BuildStage × PyErr) α
  | .ok a => .ok a
  | .error e => .error (done, st, e)

/-- `weakCNLSxG1.__init__` after the plain attribute assignments: create the
index sets and the decision variables, then assemble the objective and the
constraint blocks in source order, stopping at the first Python error. On
error the completed stages and the failing stage are reported. -/
def xg1_init (cet fn rts : String) (d : XG1Data) :
    Except (List BuildStage × BuildStage × PyErr) BuiltModel := do
  let done0 := [BuildStage.sets, BuildStage.vars]
  let obj := objective_rule d
  let done1 := done0 ++ [BuildStage.objective]
  let regRule ← atStage done1 BuildStage.regression (regression_rule cet rts d)
  let regCons ← atStage done1 BuildStage.regression (buildBlock regRule (oneDimIdx d.n))
  let done2 := done1 ++ [BuildStage.regression]
  let logCons ←
    (if cet = CET_MULT then do
      let lr ← atStage done2 BuildStage.logc (log_rule cet rts d)
      atStage done2 BuildStage.logc (buildBlock lr (oneDimIdx d.n))
    else pure [])
  let done3 := if cet = CET_MULT then done2 ++ [BuildStage.logc] else done2
  let afrRule ← atStage done3 BuildStage.afriat (afriat_rule fn rts d)
  let afrCons ← atStage done3 BuildStage.afriat (buildBlock afrRule (oneDimIdx d.n))
  let done4 := done3 ++ [BuildStage.afriat]
  let dispRule ← atStage done4 BuildStage.disposability (disposability_rule rts d)
  let dispCons ← atStage done4 BuildStage.disposability (buildBlock dispRule (twoDimIdx d.n))
  let done5 := done4 ++ [BuildStage.disposability]
  let swRule ← atStage done5 BuildStage.sweet (sweet_rule fn rts d)
  let swCons ← atStage done5 BuildStage.sweet (buildBlock swRule (twoDimIdx d.n))
  .ok { objective := obj, regressionCons := regCons, logCons := logCons,
        afriatCons := afrCons, disposabilityCons := dispCons, sweetCons := swCons }

/-- The outcome an external `optimize_model` call writes into the model. -/
structure SolveOutcome : Type where
  problem_status : Nat
  optimization_status : Nat
  alphaVal : Nat → ℚ
  deltaVal : Mat
  gammaVal : Mat

/-- The run state of a `weakCNLSxG1` instance: status flags, the variable
values held by the pyomo model, and (for specification purposes) the log of
`optimize_model` invocations with their arguments. -/
structure XG1Run : Type where
  optimization_status : Nat
  problem_status : Nat
  alphaVal : Nat → ℚ
  deltaVal : Mat
  gammaVal : Mat
  solveCalls : List (String × String)

/-- `weakCNLSxG1.optimize`: delegate to the external `optimize_model`
(modelled as an oracle from the `(email, solver)` arguments to a solve
outcome) and store the statuses and solved variable values. -/
def xg1_optimize (oracle : String → String → SolveOutcome) (email solver : String)
    (st : XG1Run) : XG1Run :=
  let r := oracle email solver
  { optimization_status := r.optimization_status,
    problem_status := r.problem_status,
    alphaVal := r.alphaVal, deltaVal := r.deltaVal, gammaVal := r.gammaVal,
    solveCalls := st.solveCalls ++ [(email, solver)] }

/-- `weakCNLSxG1.get_alpha`: no precondition assertion; if the model was not
optimized yet, silently call `self.optimize()` with its defaults first. -/
def xg1_get_alpha (oracle : String → String → SolveOutcome) (st : XG1Run) :
    Except PyErr ((Nat → ℚ) × XG1Run) :=
  let st' := if st.optimization_status = 0
    then xg1_optimize oracle OPT_LOCAL OPT_DEFAULT st else st
  .ok (st'.alphaVal, st')

/-- `weakCNLSxG1.get_delta`: same lazy-solve pattern, returning the pivoted
`delta` value matrix. -/
def xg1_get_delta (oracle : String → String → SolveOutcome) (st : XG1Run) :
    Except PyErr (Mat × XG1Run) :=
  let st' := if st.optimization_status = 0
    then xg1_optimize oracle OPT_LOCAL OPT_DEFAULT st else st
  .ok (st'.deltaVal, st')

/-- `weakCNLSxG1.get_gamma`: same lazy-solve pattern, returning the pivoted
`gamma` value matrix. -/
def xg1_get_gamma (oracle : String → String → SolveOutcome) (st : XG1Run) :
    Except PyErr (Mat × XG1Run) :=
  let st' := if st.optimization_status = 0
    then xg1_optimize oracle OPT_LOCAL OPT_DEFAULT st else st
  .ok (st'.gammaVal, st')

/-! ## Concrete sample data used to evaluate the embedded code -/

/-- The all-zero matrix. -/
def zeroMat : Mat := fun _ _ => 0

/-- Zero fitted parameters. -/
def zeroFitted : Fitted :=
  { alpha := fun _ => 0, beta := zeroMat, delta := zeroMat }

/-- A solve oracle that always returns zero fitted parameters. -/
def zeroOracle : Nat → Fitted := fun _ => zeroFitted

/-- The all-zero matrix state the constructor initializes. -/
def zeroGMats : GMats :=
  { active := zeroMat, active2 := zeroMat,
    activeweak := zeroMat, activeweak2 := zeroMat }

/-- A matrix state whose `active` and `activeweak` entries are all 1. -/
def onesGMats : GMats :=
  { active := fun _ _ => 1, active2 := zeroMat,
    activeweak := fun _ _ => 1, activeweak2 := zeroMat }

/-- Two units, no inputs or bads, fitted intercepts `(5, 0)`: the largest
concavity violation (5) sits in row 0 and row 1 has none. -/
def c1Args : ScanArgs :=
  { n := 2, k := 0, l := 0, x := zeroMat, b := zeroMat,
    alpha := fun i => if i = 0 then 5 else 0, beta := zeroMat,
    delta := zeroMat }

/-- Two units, one input: the largest weak-disposability violation (5) sits in
row 0 and row 1 has none. -/
def c1WeakArgs : ScanArgs :=
  { n := 2, k := 1, l := 0, x := fun i _ => if i = 0 then 5 else 0,
    b := zeroMat, alpha := fun _ => 0,
    beta := fun j _ => if j = 0 then -1 else 0, delta := zeroMat }

/-- Two units with intercepts `(-1, 5)`: the concavity statistic exceeds the
tolerance while the weak scan, had it run, would mark column 0. -/
def c4Args : ScanArgs :=
  { n := 2, k := 0, l := 0, x := zeroMat, b := zeroMat,
    alpha := fun i => if i = 0 then -1 else 5, beta := zeroMat,
    delta := zeroMat }

/-- A small single-unit dataset for the inner model builder. -/
def sampleXG1 : XG1Data :=
  { n := 1, dimJ := 1, dimL := 1, xval := fun _ => 1, x := fun _ _ => 1,
    y := fun _ _ => 1, b := fun _ _ => 1, cutactive := fun _ _ => 1 }

/-- A two-unit dataset for the inner model builder. -/
def c6Data : XG1Data :=
  { n := 2, dimJ := 1, dimL := 1, xval := fun _ => 1, x := fun _ _ => 1,
    y := fun _ _ => 1, b := fun _ _ => 1, cutactive := fun _ _ => 1 }

/-- The single-index rule `__disposability_rule` returns for `RTS_VRS` on
`c6Data`. -/
def c6DispRule : Nat → Except PyErr CVal :=
  fun i => .ok (.sat fun m =>
    decide (0 ≤ m.alpha (nextw c6Data.n i) + sumRange (c6Data.x i) c6Data.dimJ))

/-- Projection of a loop-condition evaluation onto
(loop-continues?, weak-scan-ran?). -/
def condOf (r : Except PyErr (Bool × Bool × GMats)) : Option (Bool × Bool) :=
  match r with
  | .ok (c, w, _) => some (c, w)
  | .error _ => none

/-- Projection of a loop-condition evaluation onto the resulting matrices. -/
def condMats (r : Except PyErr (Bool × Bool × GMats)) : Option GMats :=
  match r with
  | .ok (_, _, m) => some m
  | .error _ => none

/-- Read one entry of the weak-disposability active matrix. -/
def weakEntry (o : Option GMats) (a c : Nat) : Option ℚ :=
  o.map fun m => m.activeweak a c

/-- A freshly constructed (never optimized) run state of `weakCNLSG`. -/
def sampleRun0 : WeakCNLSGRun :=
  { optimization_status := 0, rts := RTS_VRS, cet := CET_ADDI, z := none,
    b := [[1]], y := [1], alphaVal := [], betaVal := [], deltaVal := [],
    epsilonVal := [], lamdaVal := [], frontierVal := [] }

/-- A freshly constructed (never optimized) run state of `weakCNLSxG1`. -/
def sampleXG1Run : XG1Run :=
  { optimization_status := 0, problem_status := 0, alphaVal := fun _ => 0,
    deltaVal := zeroMat, gammaVal := zeroMat, solveCalls := [] }

/-- A solve oracle for the inner model returning distinctive values. -/
def sampleOracle : String → String → SolveOutcome :=
  fun _ _ =>
    { problem_status := 1, optimization_status := 1, alphaVal := fun _ => 2,
      deltaVal := fun _ _ => 3, gammaVal := fun _ _ => 4 }

/-! ## Lemmas about the violation-scanner loops -/

theorem updMat_apply (m : Mat) (i j a c : Nat) (v : ℚ) :
    updMat m i j v a c = if a = i ∧ c = j then v else m a c := rfl

theorem rowStat_zero (s : Nat → Nat → ℚ) (i : Nat) : rowStat s 0 i = 0 := rfl

theorem rowStat_succ (s : Nat → Nat → ℚ) (n i : Nat) :
    rowStat s (n + 1) i =
      if s i n > rowStat s n i then s i n else rowStat s n i := by
  simp [rowStat, List.range_succ]

theorem rowStat_nonneg (s : Nat → Nat → ℚ) (n i : Nat) : 0 ≤ rowStat s n i := by
  induction n with
  | zero => simp [rowStat_zero]
  | succ n ih =>
    rw [rowStat_succ]
    split_ifs with h
    · exact le_of_lt (lt_of_le_of_lt ih h)
    · exact ih

theorem le_rowStat (s : Nat → Nat → ℚ) (n i j : Nat) (h : j < n) :
    s i j ≤ rowStat s n i := by
  induction n with
  | zero => omega
  | succ n ih =>
    rw [rowStat_succ]
    rcases Nat.lt_succ_iff_lt_or_eq.mp h with hj | hj
    · split_ifs with hc
      · exact le_trans (ih hj) (le_of_lt hc)
      · exact ih hj
    · subst hj
      split_ifs with hc
      · exact le_refl _
      · exact le_of_not_lt hc

theorem rowStat_exists (s : Nat → Nat → ℚ) (n i : Nat) (h : 0 < rowStat s n i) :
    ∃ j, j < n ∧ s i j = rowStat s n i := by
  induction n with
  | zero => rw [rowStat_zero] at h; exact absurd h (lt_irrefl 0)
  | succ n ih =>
    rw [rowStat_succ] at h ⊢
    split_ifs at h ⊢ with hc
    · exact ⟨n, Nat.lt_succ_self n, rfl⟩
    · rcases ih h with ⟨j, hj, hv⟩
      exact ⟨j, Nat.lt_succ_of_lt hj, hv⟩

theorem scanRow_zero (s : Nat → Nat → ℚ) (i : Nat) (a2 : Mat) :
    scanRow s 0 i a2 = (a2, 0) := rfl

theorem scanRow_succ (s : Nat → Nat → ℚ) (n i : Nat) (a2 : Mat) :
    scanRow s (n + 1) i a2 =
      (updMat (scanRow s n i a2).1 i n (s i n),
       if s i n > (scanRow s n i a2).2 then s i n else (scanRow s n i a2).2) := by
  simp [scanRow, List.range_succ]

theorem scanRow_snd (s : Nat → Nat → ℚ) (n i : Nat) (a2 : Mat) :
    (scanRow s n i a2).2 = rowStat s n i := by
  induction n with
  | zero => rfl
  | succ n ih => rw [scanRow_succ, rowStat_succ, ih]

theorem scanRow_fst_apply (s : Nat → Nat → ℚ) (n i : Nat) (a2 : Mat) (a c : Nat) :
    (scanRow s n i a2).1 a c = if a = i ∧ c < n then s i c else a2 a c := by
  induction n with
  | zero => simp [scanRow_zero]
  | succ n ih =>
    rw [scanRow_succ]
    simp only [updMat_apply, ih]
    by_cases ha : a = i
    · subst ha
      by_cases hc : c = n
      · subst hc; simp
      · by_cases hlt : c < n
        · simp [hc, hlt, Nat.lt_succ_of_lt hlt]
        · have : ¬ c < n + 1 := by omega
          simp [hc, hlt, this]
    · simp [ha]

theorem markRow_zero (i : Nat) (a2 : Mat) (t : ℚ) (ac : Mat) :
    markRow 0 i a2 t ac = ac := rfl

theorem markRow_succ (n i : Nat) (a2 : Mat) (t : ℚ) (ac : Mat) :
    markRow (n + 1) i a2 t ac =
      (if a2 i n ≥ t ∧ t > 0 then updMat (markRow n i a2 t ac) i n 1
       else markRow n i a2 t ac) := by
  simp [markRow, List.range_succ]

theorem markRow_apply (n i : Nat) (a2 : Mat) (t : ℚ) (ac : Mat) (a c : Nat) :
    markRow n i a2 t ac a c =
      if a = i ∧ c < n ∧ a2 i c ≥ t ∧ t > 0 then 1 else ac a c := by
  induction n with
  | zero => simp [markRow_zero]
  | succ n ih =>
    rw [markRow_succ]
    by_cases hm : a2 i n ≥ t ∧ t > 0
    · rw [if_pos hm, updMat_apply, ih]
      by_cases ha : a = i
      · subst ha
        by_cases hc : c = n
        · subst hc
          simp [hm, Nat.lt_succ_self]
        · have hiff : c < n + 1 ↔ c < n := by omega
          simp [hc, hiff]
      · simp [ha]
    · rw [if_neg hm, ih]
      by_cases ha : a = i
      · subst ha
        by_cases hc : c = n
        · subst hc
          simp [hm]
        · have hiff : c < n + 1 ↔ c < n := by omega
          simp [hc, hiff]
      · simp [ha]

theorem convLoopAux_zero (s : Nat → Nat → ℚ) (n : Nat) (ac a2 : Mat) :
    convLoopAux s n 0 ac a2 = (ac, a2, none, 0) := rfl

theorem convLoopAux_succ (s : Nat → Nat → ℚ) (n m : Nat) (ac a2 : Mat) :
    convLoopAux s n (m + 1) ac a2 =
      (markRow n m (scanRow s n m (convLoopAux s n m ac a2).2.1).1
         (scanRow s n m (convLoopAux s n m ac a2).2.1).2
         (convLoopAux s n m ac a2).1,
       (scanRow s n m (convLoopAux s n m ac a2).2.1).1,
       some (scanRow s n m (convLoopAux s n m ac a2).2.1).2,
       if (scanRow s n m (convLoopAux s n m ac a2).2.1).2 >
           (convLoopAux s n m ac a2).2.2.2
       then (scanRow s n m (convLoopAux s n m ac a2).2.1).2
       else (convLoopAux s n m ac a2).2.2.2) := by
  simp [convLoopAux, List.range_succ]

theorem rowStep_active (s : Nat → Nat → ℚ) (n m : Nat) (prevAc prevA2 : Mat)
    (a c : Nat) :
    markRow n m (scanRow s n m prevA2).1 (scanRow s n m prevA2).2 prevAc a c =
      if a = m ∧ c < n ∧ s m c ≥ rowStat s n m ∧ 0 < rowStat s n m then 1
      else prevAc a c := by
  rw [markRow_apply, scanRow_snd, scanRow_fst_apply]
  by_cases h : a = m ∧ c < n
  · obtain ⟨ha, hc⟩ := h
    subst ha
    simp [hc]
  · rw [if_neg (by tauto), if_neg (by tauto)]

theorem convLoopAux_active (s : Nat → Nat → ℚ) (n : Nat) (ac a2 : Mat)
    (a c : Nat) :
    ∀ m, (convLoopAux s n m ac a2).1 a c =
      if a < m ∧ c < n ∧ s a c ≥ rowStat s n a ∧ 0 < rowStat s n a then 1
      else ac a c := by
  intro m
  induction m with
  | zero => simp [convLoopAux_zero]
  | succ m ih =>
    rw [convLoopAux_succ]
    show markRow n m _ _ _ a c = _
    rw [rowStep_active, ih]
    by_cases ha : a = m
    · subst ha
      have hlt : a < a + 1 := Nat.lt_succ_self a
      have hnl : ¬ a < a := lt_irrefl a
      by_cases hq : c < n ∧ s a c ≥ rowStat s n a ∧ 0 < rowStat s n a
      · rw [if_pos ⟨rfl, hq⟩, if_pos ⟨hlt, hq⟩]
      · rw [if_neg (by tauto), if_neg (by tauto), if_neg (by tauto)]
    · rw [if_neg (by tauto)]
      have hiff : a < m + 1 ↔ a < m := by omega
      by_cases hq : a < m ∧ c < n ∧ s a c ≥ rowStat s n a ∧ 0 < rowStat s n a
      · rw [if_pos hq, if_pos ⟨hiff.mpr hq.1, hq.2⟩]
      · rw [if_neg hq, if_neg (by rw [and_congr_left_iff.mpr (fun _ => hiff)]; exact hq)]

theorem convLoopAux_a2 (s : Nat → Nat → ℚ) (n : Nat) (ac a2 : Mat) (a c : Nat) :
    ∀ m, (convLoopAux s n m ac a2).2.1 a c =
      if a < m ∧ c < n then s a c else a2 a c := by
  intro m
  induction m with
  | zero => simp [convLoopAux_zero]
  | succ m ih =>
    rw [convLoopAux_succ]
    show (scanRow s n m _).1 a c = _
    rw [scanRow_fst_apply, ih]
    by_cases ha : a = m
    · subst ha
      have hlt : a < a + 1 := Nat.lt_succ_self a
      by_cases hc : c < n
      · rw [if_pos ⟨rfl, hc⟩, if_pos ⟨hlt, hc⟩]
      · rw [if_neg (by tauto), if_neg (by tauto), if_neg (by tauto)]
    · rw [if_neg (by tauto)]
      have hiff : a < m + 1 ↔ a < m := by omega
      by_cases hq : a < m ∧ c < n
      · rw [if_pos hq, if_pos ⟨hiff.mpr hq.1, hq.2⟩]
      · rw [if_neg hq, if_neg (by rw [and_congr_left_iff.mpr (fun _ => hiff)]; exact hq)]

theorem convLoopAux_tmp (s : Nat → Nat → ℚ) (n : Nat) (ac a2 : Mat) :
    ∀ m, (convLoopAux s n m ac a2).2.2.1 =
      if m = 0 then none else some (rowStat s n (m - 1)) := by
  intro m
  induction m with
  | zero => simp [convLoopAux_zero]
  | succ m _ =>
    rw [convLoopAux_succ]
    show some (scanRow s n m _).2 = _
    rw [scanRow_snd]
    simp

/-- The matrix a recognized-regime scan leaves in the `active` slot. -/
def scanActiveResult (s : Nat → Nat → ℚ) (n : Nat) (ac : Mat) : Mat :=
  fun a c =>
    if a < n ∧ c < n ∧ s a c ≥ rowStat s n a ∧ 0 < rowStat s n a then 1
    else ac a c

/-- The matrix a recognized-regime scan leaves in the `active2` slot. -/
def scanA2Result (s : Nat → Nat → ℚ) (n : Nat) (a2 : Mat) : Mat :=
  fun a c => if a < n ∧ c < n then s a c else a2 a c

theorem runScan_ok (s : Nat → Nat → ℚ) (n : Nat) (ac a2 : Mat) (hn : 1 ≤ n) :
    runScan s n ac a2 =
      .ok (rowStat s n (n - 1), scanActiveResult s n ac, scanA2Result s n a2) := by
  have ht : (convLoop s n ac a2).2.2.1 = some (rowStat s n (n - 1)) := by
    rw [convLoop, convLoopAux_tmp]
    rw [if_neg (by omega)]
  rw [runScan, ht]
  refine congrArg Except.ok ?_
  refine congrArg (Prod.mk _) ?_
  refine Prod.ext ?_ ?_
  · funext a c
    show (convLoopAux s n n ac a2).1 a c = _
    rw [convLoopAux_active]
    rfl
  · funext a c
    show (convLoopAux s n n ac a2).2.1 a c = _
    rw [convLoopAux_a2]
    rfl

theorem runScan_zero (s : Nat → Nat → ℚ) (ac a2 : Mat) :
    runScan s 0 ac a2 = .error .unboundLocal := rfl

theorem concavScore_vrs_prod (A : ScanArgs) :
    concavScore RTS_VRS FUN_PROD A = scoreVrsProd A := by
  rw [concavScore, if_pos ⟨rfl, rfl⟩]

theorem concavScore_vrs_cost (A : ScanArgs) :
    concavScore RTS_VRS FUN_COST A = scoreVrsCost A := by
  rw [concavScore, if_neg (by decide), if_pos ⟨rfl, rfl⟩]

theorem concavScore_crs_prod (A : ScanArgs) :
    concavScore RTS_CRS FUN_PROD A = scoreCrsProd A := by
  rw [concavScore, if_neg (by decide), if_neg (by decide), if_pos ⟨rfl, rfl⟩]

theorem concavScore_crs_cost (A : ScanArgs) :
    concavScore RTS_CRS FUN_COST A = scoreCrsCost A := by
  rw [concavScore, if_neg (by decide), if_neg (by decide), if_neg (by decide),
    if_pos ⟨rfl, rfl⟩]

theorem weakScore_vrs_prod (A : ScanArgs) :
    weakScore RTS_VRS FUN_PROD A = scoreWeakVrsProd A := by
  rw [weakScore, if_pos ⟨rfl, rfl⟩]

theorem weakScore_vrs_cost (A : ScanArgs) :
    weakScore RTS_VRS FUN_COST A = scoreWeakVrsCost A := by
  rw [weakScore, if_neg (by decide), if_pos ⟨rfl, rfl⟩]

theorem weakScore_crs_prod (A : ScanArgs) :
    weakScore RTS_CRS FUN_PROD A = scoreWeakCrsProd A := by
  rw [weakScore, if_neg (by decide), if_neg (by decide), if_pos ⟨rfl, rfl⟩]

theorem weakScore_crs_cost (A : ScanArgs) :
    weakScore RTS_CRS FUN_COST A = scoreWeakCrsCost A := by
  rw [weakScore, if_neg (by decide), if_neg (by decide), if_neg (by decide),
    if_pos ⟨rfl, rfl⟩]

theorem concavBranch_ok (s : Nat → Nat → ℚ) (A : ScanArgs) (m : GMats)
    (hn : 1 ≤ A.n) :
    concavBranch s A m =
      .ok (rowStat s A.n (A.n - 1),
        { m with active := scanActiveResult s A.n m.active,
                 active2 := scanA2Result s A.n m.active2 }) := by
  rw [concavBranch, runScan_ok _ _ _ _ hn]

theorem weakBranch_ok (s : Nat → Nat → ℚ) (A : ScanArgs) (m : GMats)
    (hn : 1 ≤ A.n) :
    weakBranch s A m =
      .ok (rowStat s A.n (A.n - 1),
        { m with activeweak := scanActiveResult s A.n m.activeweak,
                 activeweak2 := scanA2Result s A.n m.activeweak2 }) := by
  rw [weakBranch, runScan_ok _ _ _ _ hn]

theorem convergence_test_ok (rts fn : String) (A : ScanArgs) (m : GMats)
    (hr : rts = RTS_VRS ∨ rts = RTS_CRS) (hf : fn = FUN_PROD ∨ fn = FUN_COST)
    (hn : 1 ≤ A.n) :
    convergence_test rts fn A m =
      .ok (rowStat (concavScore rts fn A) A.n (A.n - 1),
        { m with active := scanActiveResult (concavScore rts fn A) A.n m.active,
                 active2 := scanA2Result (concavScore rts fn A) A.n m.active2 }) := by
  rcases hr with h1 | h1 <;> rcases hf with h2 | h2 <;> subst h1 <;> subst h2
  · rw [concavScore_vrs_prod, convergence_test, if_pos ⟨rfl, rfl⟩,
      concavBranch_ok _ _ _ hn]
  · rw [concavScore_vrs_cost, convergence_test, if_neg (by decide),
      if_pos ⟨rfl, rfl⟩, concavBranch_ok _ _ _ hn]
  · rw [concavScore_crs_prod, convergence_test, if_neg (by decide),
      if_neg (by decide), if_pos ⟨rfl, rfl⟩, concavBranch_ok _ _ _ hn]
  · rw [concavScore_crs_cost, convergence_test, if_neg (by decide),
      if_neg (by decide), if_neg (by decide), if_pos ⟨rfl, rfl⟩,
      concavBranch_ok _ _ _ hn]

theorem convergence_test_weak_ok (rts fn : String) (A : ScanArgs) (m : GMats)
    (hr : rts = RTS_VRS ∨ rts = RTS_CRS) (hf : fn = FUN_PROD ∨ fn = FUN_COST)
    (hn : 1 ≤ A.n) :
    convergence_test_weak rts fn A m =
      .ok (rowStat (weakScore rts fn A) A.n (A.n - 1),
        { m with activeweak := scanActiveResult (weakScore rts fn A) A.n m.activeweak,
                 activeweak2 := scanA2Result (weakScore rts fn A) A.n m.activeweak2 }) := by
  rcases hr with h1 | h1 <;> rcases hf with h2 | h2 <;> subst h1 <;> subst h2
  · rw [weakScore_vrs_prod, convergence_test_weak, if_pos ⟨rfl, rfl⟩,
      weakBranch_ok _ _ _ hn]
  · rw [weakScore_vrs_cost, convergence_test_weak, if_neg (by decide),
      if_pos ⟨rfl, rfl⟩, weakBranch_ok _ _ _ hn]
  · rw [weakScore_crs_prod, convergence_test_weak, if_neg (by decide),
      if_neg (by decide), if_pos ⟨rfl, rfl⟩, weakBranch_ok _ _ _ hn]
  · rw [weakScore_crs_cost, convergence_test_weak, if_neg (by decide),
      if_neg (by decide), if_neg (by decide), if_pos ⟨rfl, rfl⟩,
      weakBranch_ok _ _ _ hn]

theorem runScan_ok_inv (s : Nat → Nat → ℚ) (n : Nat) (ac a2 : Mat) (v : ℚ)
    (ac' a2' : Mat) (h : runScan s n ac a2 = .ok (v, ac', a2')) (a c : Nat)
    (h1 : ac a c = 1) : ac' a c = 1 := by
  rw [runScan] at h
  cases htmp : (convLoop s n ac a2).2.2.1 with
  | none => rw [htmp] at h; exact absurd h (by simp)
  | some w =>
    rw [htmp] at h
    simp only [Except.ok.injEq, Prod.mk.injEq] at h
    obtain ⟨-, hac, -⟩ := h
    rw [← hac]
    show (convLoopAux s n n ac a2).1 a c = 1
    rw [convLoopAux_active]
    split_ifs with hcond
    · rfl
    · exact h1

theorem concavBranch_inv (s : Nat → Nat → ℚ) (A : ScanArgs) (m : GMats)
    (v : ℚ) (m' : GMats) (h : concavBranch s A m = .ok (v, m')) :
    (∀ a c, m.active a c = 1 → m'.active a c = 1) ∧
      m'.activeweak = m.activeweak ∧ m'.activeweak2 = m.activeweak2 := by
  rw [concavBranch] at h
  cases hrs : runScan s A.n m.active m.active2 with
  | error e => rw [hrs] at h; exact absurd h (by simp)
  | ok p =>
    obtain ⟨w, ac', a2'⟩ := p
    rw [hrs] at h
    simp only [Except.ok.injEq, Prod.mk.injEq] at h
    obtain ⟨-, hm⟩ := h
    subst hm
    exact ⟨fun a c h1 => runScan_ok_inv _ _ _ _ _ _ _ hrs a c h1, rfl, rfl⟩

theorem weakBranch_inv (s : Nat → Nat → ℚ) (A : ScanArgs) (m : GMats)
    (v : ℚ) (m' : GMats) (h : weakBranch s A m = .ok (v, m')) :
    (∀ a c, m.activeweak a c = 1 → m'.activeweak a c = 1) ∧
      m'.active = m.active ∧ m'.active2 = m.active2 := by
  rw [weakBranch] at h
  cases hrs : runScan s A.n m.activeweak m.activeweak2 with
  | error e => rw [hrs] at h; exact absurd h (by simp)
  | ok p =>
    obtain ⟨w, ac', a2'⟩ := p
    rw [hrs] at h
    simp only [Except.ok.injEq, Prod.mk.injEq] at h
    obtain ⟨-, hm⟩ := h
    subst hm
    exact ⟨fun a c h1 => runScan_ok_inv _ _ _ _ _ _ _ hrs a c h1, rfl, rfl⟩

theorem convergence_test_ok_inv (rts fn : String) (A : ScanArgs) (m : GMats)
    (v : ℚ) (m' : GMats) (h : convergence_test rts fn A m = .ok (v, m')) :
    (∀ a c, m.active a c = 1 → m'.active a c = 1) ∧
      m'.activeweak = m.activeweak ∧ m'.activeweak2 = m.activeweak2 := by
  rw [convergence_test] at h
  split_ifs at h
  all_goals exact concavBranch_inv _ _ _ _ _ h

theorem convergence_test_weak_ok_inv (rts fn : String) (A : ScanArgs)
    (m : GMats) (v : ℚ) (m' : GMats)
    (h : convergence_test_weak rts fn A m = .ok (v, m')) :
    (∀ a c, m.activeweak a c = 1 → m'.activeweak a c = 1) ∧
      m'.active = m.active ∧ m'.active2 = m.active2 := by
  rw [convergence_test_weak] at h
  split_ifs at h
  all_goals exact weakBranch_inv _ _ _ _ _ h

theorem loopCond_inv (rts fn : String) (A : ScanArgs) (m : GMats) (c w : Bool)
    (m' : GMats) (h : loopCond rts fn A m = .ok (c, w, m')) :
    (∀ a d, m.active a d = 1 → m'.active a d = 1) ∧
      (∀ a d, m.activeweak a d = 1 → m'.activeweak a d = 1) := by
  rw [loopCond] at h
  cases hct : convergence_test rts fn A m with
  | error e => rw [hct] at h; exact absurd h (by simp)
  | ok p =>
    obtain ⟨v1, m1⟩ := p
    simp only [hct] at h
    obtain ⟨hact1, hweak1, -⟩ := convergence_test_ok_inv rts fn A m v1 m1 hct
    by_cases hv : v1 > 1 / 10000
    · rw [if_pos hv] at h
      simp only [Except.ok.injEq, Prod.mk.injEq] at h
      obtain ⟨-, -, hm⟩ := h
      subst hm
      refine ⟨hact1, fun a d h1 => ?_⟩
      rw [hweak1]
      exact h1
    · rw [if_neg hv] at h
      cases hwt : convergence_test_weak rts fn A m1 with
      | error e => rw [hwt] at h; exact absurd h (by simp)
      | ok q =>
        obtain ⟨v2, m2⟩ := q
        rw [hwt] at h
        simp only [Except.ok.injEq, Prod.mk.injEq] at h
        obtain ⟨-, -, hm⟩ := h
        subst hm
        obtain ⟨hweak2, hact2, -⟩ := convergence_test_weak_ok_inv rts fn A m1 v2 m2 hwt
        constructor
        · intro a d h1
          rw [hact2]
          exact hact1 a d h1
        · intro a d h1
          refine hweak2 a d ?_
          rw [hweak1]
          exact h1

theorem optStep_inv (rts fn : String) (n k l : Nat) (x b : Mat)
    (oracle : Nat → Fitted) (t : Nat) (m : GMats) :
    (∀ a d, m.active a d = 1 →
      (optStep rts fn n k l x b oracle t m).active a d = 1) ∧
      (∀ a d, m.activeweak a d = 1 →
        (optStep rts fn n k l x b oracle t m).activeweak a d = 1) := by
  rw [optStep]
  cases hlc : loopCond rts fn (mkScanArgs n k l x b (oracle t)) m with
  | error e => exact ⟨fun a d h1 => h1, fun a d h1 => h1⟩
  | ok p =>
    obtain ⟨c, w, m'⟩ := p
    exact loopCond_inv _ _ _ _ _ _ _ hlc

/-! ## Lemmas about the inner model builder -/

@[simp] theorem atStage_ok (done : List BuildStage) (st : BuildStage) (a : α) :
    atStage done st (Except.ok a) = Except.ok a := rfl

@[simp] theorem atStage_error {α : Type} (done : List BuildStage)
    (st : BuildStage) (e : PyErr) :
    atStage done st (Except.error e : Except PyErr α) =
      Except.error (done, st, e) := rfl

@[simp] theorem except_ok_bind (a : α) (k : α → Except ε β) :
    (Except.ok a >>= k) = k a := rfl

@[simp] theorem except_error_bind (e : ε) (k : α → Except ε β) :
    (Except.error e >>= k : Except ε β) = Except.error e := rfl

@[simp] theorem except_pure_bind (a : α) (k : α → Except ε β) :
    ((pure a : Except ε α) >>= k) = k a := rfl

theorem mapM_oneDim (f : Nat → Except PyErr CVal) (l : List Nat) :
    (l.map (fun i => [i])).mapM (applyRule (.unary f)) = l.mapM f := by
  induction l with
  | nil => rfl
  | cons a l ih =>
    simp only [List.map_cons, List.mapM_cons]
    rw [ih]
    rfl

theorem mapM_ok (f : Nat → Except PyErr CVal) (g : Nat → CVal)
    (hf : ∀ i, f i = .ok (g i)) (l : List Nat) :
    l.mapM f = .ok (l.map g) := by
  induction l with
  | nil => rfl
  | cons a l ih =>
    rw [List.mapM_cons, hf a, ih]
    rfl

theorem buildBlock_oneDim_ok (f : Nat → Except PyErr CVal) (g : Nat → CVal)
    (hf : ∀ i, f i = .ok (g i)) (n : Nat) :
    buildBlock (.unary f) (oneDimIdx n) = .ok ((List.range n).map g) := by
  rw [buildBlock, oneDimIdx, mapM_oneDim, mapM_ok f g hf]

theorem buildBlock_oneDim_err (f : Nat → Except PyErr CVal) (e : PyErr)
    (hf : f 0 = .error e) (n : Nat) (hn : 1 ≤ n) :
    buildBlock (.unary f) (oneDimIdx n) = .error e := by
  obtain ⟨m, rfl⟩ : ∃ m, n = m + 1 := ⟨n - 1, by omega⟩
  rw [buildBlock, oneDimIdx, List.range_succ_eq_map]
  simp only [List.map_cons, List.mapM_cons, applyRule, hf]
  rfl

theorem twoDimIdx_head (n : Nat) (hn : 1 ≤ n) :
    ∃ rest, twoDimIdx n = [0, 0] :: rest := by
  obtain ⟨m, rfl⟩ : ∃ m, n = m + 1 := ⟨n - 1, by omega⟩
  rw [twoDimIdx, List.range_succ_eq_map]
  simp only [List.flatMap_cons, List.map_cons, List.cons_append]
  exact ⟨_, rfl⟩

theorem buildBlock_twoDim_unary (f : Nat → Except PyErr CVal) (n : Nat)
    (hn : 1 ≤ n) :
    buildBlock (.unary f) (twoDimIdx n) = .error .typeError := by
  obtain ⟨rest, hr⟩ := twoDimIdx_head n hn
  rw [buildBlock, hr, List.mapM_cons]
  rfl

theorem buildBlock_oneDim_ok2 (f : Nat → Except PyErr CVal)
    (hf : ∀ i, ∃ c, f i = .ok c) (n : Nat) :
    ∃ cs, buildBlock (.unary f) (oneDimIdx n) = .ok cs := by
  rw [buildBlock, oneDimIdx, mapM_oneDim]
  induction n with
  | zero => exact ⟨[], rfl⟩
  | succ n ih =>
    obtain ⟨cs, hcs⟩ := ih
    obtain ⟨c, hc⟩ := hf n
    refine ⟨cs ++ [c], ?_⟩
    rw [List.range_succ, List.mapM_append, hcs]
    simp only [List.mapM_cons, hc, List.mapM_nil]
    rfl

theorem init_err_at_regression (cet fn rts : String) (d : XG1Data) (e : PyErr)
    (h : regression_rule cet rts d = .error e) :
    xg1_init cet fn rts d =
      .error ([BuildStage.sets, BuildStage.vars, BuildStage.objective],
        BuildStage.regression, e) := by
  simp only [xg1_init, h, atStage_error, except_error_bind]
  rfl

theorem init_err_at_logc (fn rts : String) (d : XG1Data) (e : PyErr)
    (hlog : log_rule CET_MULT rts d = .error e) :
    xg1_init CET_MULT fn rts d =
      .error ([BuildStage.sets, BuildStage.vars, BuildStage.objective,
        BuildStage.regression], BuildStage.logc, e) := by
  have hreg : regression_rule CET_MULT rts d =
      .ok (.unary fun _i => .ok CVal.logForm) := by
    rw [regression_rule, if_neg (by decide), if_pos rfl]
  obtain ⟨cs, hcs⟩ := buildBlock_oneDim_ok2
    (fun _i => .ok CVal.logForm) (fun _i => ⟨_, rfl⟩) d.n
  simp only [xg1_init, hreg, atStage_ok, except_ok_bind, except_pure_bind,
    hcs, hlog, atStage_error, except_error_bind, eq_self_iff_true, if_true,
    List.cons_append, List.nil_append]

theorem init_err_at_afriat (cet fn rts : String) (d : XG1Data)
    (hreg : ∃ f, regression_rule cet rts d = .ok (.unary f) ∧
      ∀ i, ∃ c, f i = .ok c)
    (hlog : cet = CET_MULT → ∃ f, log_rule cet rts d = .ok (.unary f) ∧
      ∀ i, ∃ c, f i = .ok c)
    (hafr : ∃ g, afriat_rule fn rts d = .ok (.unary g) ∧
      g 0 = .error .nameError)
    (hn : 1 ≤ d.n) :
    ∃ done, xg1_init cet fn rts d =
      .error (done, BuildStage.afriat, PyErr.nameError) ∧
      BuildStage.vars ∈ done := by
  obtain ⟨f1, h1, h1ok⟩ := hreg
  obtain ⟨cs1, hcs1⟩ := buildBlock_oneDim_ok2 f1 h1ok d.n
  obtain ⟨g, hg, hg0⟩ := hafr
  have hge := buildBlock_oneDim_err g PyErr.nameError hg0 d.n hn
  by_cases hc : cet = CET_MULT
  · obtain ⟨f2, h2, h2ok⟩ := hlog hc
    obtain ⟨cs2, hcs2⟩ := buildBlock_oneDim_ok2 f2 h2ok d.n
    refine ⟨[BuildStage.sets, BuildStage.vars, BuildStage.objective,
      BuildStage.regression, BuildStage.logc], ?_, by decide⟩
    simp only [xg1_init, h1, atStage_ok, except_ok_bind, except_pure_bind,
      hcs1, h2, hcs2, hg, hge, atStage_error, except_error_bind, if_pos hc,
      List.cons_append, List.nil_append]
  · refine ⟨[BuildStage.sets, BuildStage.vars, BuildStage.objective,
      BuildStage.regression], ?_, by decide⟩
    simp only [xg1_init, h1, atStage_ok, except_ok_bind, except_pure_bind,
      hcs1, hg, hge, atStage_error, except_error_bind, if_neg hc,
      List.cons_append, List.nil_append]

theorem init_err_at_disposability (cet fn rts : String) (d : XG1Data)
    (hreg : ∃ f, regression_rule cet rts d = .ok (.unary f) ∧
      ∀ i, ∃ c, f i = .ok c)
    (hlog : cet = CET_MULT → ∃ f, log_rule cet rts d = .ok (.unary f) ∧
      ∀ i, ∃ c, f i = .ok c)
    (hafr : ∃ g, afriat_rule fn rts d = .ok (.unary g) ∧ ∀ i, ∃ c, g i = .ok c)
    (hdisp : ∃ f, disposability_rule rts d = .ok (.unary f))
    (hn : 1 ≤ d.n) :
    ∃ done, xg1_init cet fn rts d =
      .error (done, BuildStage.disposability, PyErr.typeError) ∧
      BuildStage.vars ∈ done := by
  obtain ⟨f1, h1, h1ok⟩ := hreg
  obtain ⟨cs1, hcs1⟩ := buildBlock_oneDim_ok2 f1 h1ok d.n
  obtain ⟨g, hg, hgok⟩ := hafr
  obtain ⟨cs3, hcs3⟩ := buildBlock_oneDim_ok2 g hgok d.n
  obtain ⟨f4, h4⟩ := hdisp
  have h4e := buildBlock_twoDim_unary f4 d.n hn
  by_cases hc : cet = CET_MULT
  · obtain ⟨f2, h2, h2ok⟩ := hlog hc
    obtain ⟨cs2, hcs2⟩ := buildBlock_oneDim_ok2 f2 h2ok d.n
    refine ⟨[BuildStage.sets, BuildStage.vars, BuildStage.objective,
      BuildStage.regression, BuildStage.logc, BuildStage.afriat], ?_, by decide⟩
    simp only [xg1_init, h1, atStage_ok, except_ok_bind, except_pure_bind,
      hcs1, h2, hcs2, hg, hcs3, h4, h4e, atStage_error, except_error_bind,
      if_pos hc, List.cons_append, List.nil_append]
  · refine ⟨[BuildStage.sets, BuildStage.vars, BuildStage.objective,
      BuildStage.regression, BuildStage.afriat], ?_, by decide⟩
    simp only [xg1_init, h1, atStage_ok, except_ok_bind, except_pure_bind,
      hcs1, hg, hcs3, h4, h4e, atStage_error, except_error_bind, if_neg hc,
      List.cons_append, List.nil_append]

/-! ## Claim theorems -/

/-- C2: for every input `(y, x, b, z, cet, fun, rts)`, constructing a
`weakCNLSG` instance raises a `TypeError` during the sweet-spot preselection
step — `np.column_stack` is called with two positional arguments instead of
one tuple — before data validation ever runs; consequently no `weakCNLSG`
object is ever successfully constructed. -/
theorem c2_init_always_typeError (y x b : NpArr) (z : Option NpArr)
    (cet fn rts : String) :
    weakCNLSG_init y x b z cet fn rts = .error .typeError := rfl

/-- C10: for a `(rts, fun)` pair matching none of the four recognized regime
branches, both `__convergence_test` and `__convergence_test_weak` raise an
unbound-local-variable error at their `return` statement (the returned
accumulator `activetmp` is never assigned) instead of raising a configuration
error or returning a value. -/
theorem c10_unrecognized_regime_unboundLocal (rts fn : String) (A : ScanArgs)
    (m : GMats)
    (h1 : ¬(rts = RTS_VRS ∧ fn = FUN_PROD))
    (h2 : ¬(rts = RTS_VRS ∧ fn = FUN_COST))
    (h3 : ¬(rts = RTS_CRS ∧ fn = FUN_PROD))
    (h4 : ¬(rts = RTS_CRS ∧ fn = FUN_COST)) :
    convergence_test rts fn A m = .error .unboundLocal ∧
      convergence_test_weak rts fn A m = .error .unboundLocal := by
  constructor
  · rw [convergence_test, if_neg h1, if_neg h2, if_neg h3, if_neg h4]
  · rw [convergence_test_weak, if_neg h1, if_neg h2, if_neg h3, if_neg h4]

/-- Witness for C10 at the unrecognized pair `("vrs", "banana")`. -/
theorem c10_witness :
    convergence_test RTS_VRS "banana" c1Args zeroGMats = .error .unboundLocal ∧
      convergence_test_weak RTS_VRS "banana" c1Args zeroGMats =
        .error .unboundLocal :=
  c10_unrecognized_regime_unboundLocal RTS_VRS "banana" c1Args zeroGMats
    (by decide) (by decide) (by decide) (by decide)

/-- C8: every fitted-value accessor of `weakCNLSG` (`get_alpha`, `get_beta`,
`get_delta`, `get_residual`, `get_lamda`, `get_frontier`) fails with the
"not yet solved" precondition error when invoked while the optimization
status is still the constructor's `0`, i.e. before a successful `optimize`;
the accessors are pure and mutate no run state. -/
theorem c8_accessors_before_solve_error (st : WeakCNLSGRun) (expFn : ℚ → ℚ)
    (h : st.optimization_status = 0) :
    get_alpha st = .error .notYetSolved ∧
      get_beta st = .error .notYetSolved ∧
      get_delta st = .error .notYetSolved ∧
      get_residual st = .error .notYetSolved ∧
      get_lamda st = .error .notYetSolved ∧
      get_frontier expFn st = .error .notYetSolved := by
  have ha : assert_optimized st.optimization_status = .error .notYetSolved := by
    rw [h, assert_optimized, if_pos rfl]
  refine ⟨?_, ?_, ?_, ?_, ?_, ?_⟩ <;>
    simp only [get_alpha, get_beta, get_delta, get_residual, get_lamda,
      get_frontier, ha, except_error_bind]

/-- Witness for C8: the state left right after construction
(`optimization_status = 0`) makes every accessor fail. -/
theorem c8_witness :
    get_alpha sampleRun0 = .error .notYetSolved ∧
      get_beta sampleRun0 = .error .notYetSolved ∧
      get_delta sampleRun0 = .error .notYetSolved ∧
      get_residual sampleRun0 = .error .notYetSolved ∧
      get_lamda sampleRun0 = .error .notYetSolved ∧
      get_frontier (fun q => q) sampleRun0 = .error .notYetSolved :=
  c8_accessors_before_solve_error sampleRun0 (fun q => q) rfl

/-- C9: on the inner model `weakCNLSxG1`, calling `get_alpha`, `get_delta`
or `get_gamma` before `optimize` raises no precondition error: each silently
triggers one solve with the default settings `(OPT_LOCAL, OPT_DEFAULT)` and
returns the fitted values of that solve. -/
theorem c9_xg1_accessors_lazy_solve (oracle : String → String → SolveOutcome)
    (st : XG1Run) (h : st.optimization_status = 0) :
    xg1_get_alpha oracle st =
      .ok ((oracle OPT_LOCAL OPT_DEFAULT).alphaVal,
        xg1_optimize oracle OPT_LOCAL OPT_DEFAULT st) ∧
      xg1_get_delta oracle st =
        .ok ((oracle OPT_LOCAL OPT_DEFAULT).deltaVal,
          xg1_optimize oracle OPT_LOCAL OPT_DEFAULT st) ∧
      xg1_get_gamma oracle st =
        .ok ((oracle OPT_LOCAL OPT_DEFAULT).gammaVal,
          xg1_optimize oracle OPT_LOCAL OPT_DEFAULT st) ∧
      (xg1_optimize oracle OPT_LOCAL OPT_DEFAULT st).solveCalls =
        st.solveCalls ++ [(OPT_LOCAL, OPT_DEFAULT)] := by
  refine ⟨?_, ?_, ?_, rfl⟩ <;>
    simp only [xg1_get_alpha, xg1_get_delta, xg1_get_gamma, h, if_pos rfl] <;>
    rfl

/-- Witness for C9 on a freshly constructed inner-model state. -/
theorem c9_witness :
    xg1_get_alpha sampleOracle sampleXG1Run =
      .ok ((sampleOracle OPT_LOCAL OPT_DEFAULT).alphaVal,
        xg1_optimize sampleOracle OPT_LOCAL OPT_DEFAULT sampleXG1Run) ∧
      xg1_get_delta sampleOracle sampleXG1Run =
        .ok ((sampleOracle OPT_LOCAL OPT_DEFAULT).deltaVal,
          xg1_optimize sampleOracle OPT_LOCAL OPT_DEFAULT sampleXG1Run) ∧
      xg1_get_gamma sampleOracle sampleXG1Run =
        .ok ((sampleOracle OPT_LOCAL OPT_DEFAULT).gammaVal,
          xg1_optimize sampleOracle OPT_LOCAL OPT_DEFAULT sampleXG1Run) ∧
      (xg1_optimize sampleOracle OPT_LOCAL OPT_DEFAULT sampleXG1Run).solveCalls =
        sampleXG1Run.solveCalls ++ [(OPT_LOCAL, OPT_DEFAULT)] :=
  c9_xg1_accessors_lazy_solve sampleOracle sampleXG1Run rfl

/-- C1 is a code bug: `__convergence_test` (and `__convergence_test_weak`)
track the overall maximum in `activetmp1` but `return activetmp`, the clamped
maximum of the LAST row only. On `c1Args` the largest violation is 5 (in
row 0), yet the scanner returns 0 because row 1 has no violation; likewise
for the weak scan on `c1WeakArgs`. -/
theorem c1_return_is_last_row_stat_not_global_max :
    statOf (convergence_test RTS_VRS FUN_PROD c1Args zeroGMats) = some 0 ∧
      specConvergenceStat (concavScore RTS_VRS FUN_PROD c1Args) 2 = 5 ∧
      statOf (convergence_test_weak RTS_VRS FUN_PROD c1WeakArgs zeroGMats) =
        some 0 ∧
      specConvergenceStat (weakScore RTS_VRS FUN_PROD c1WeakArgs) 2 = 5 := by
  refine ⟨?_, ?_, ?_, ?_⟩ <;> with_unfolding_all decide

theorem scanActiveResult_mark_iff (s : Nat → Nat → ℚ) (n : Nat) (ac : Mat)
    (i j : Nat) (hi : i < n) (hj : j < n) :
    scanActiveResult s n ac i j =
      if 0 < rowStat s n i ∧ s i j = rowStat s n i then 1 else ac i j := by
  rw [scanActiveResult]
  by_cases hpos : 0 < rowStat s n i
  · by_cases heq : s i j = rowStat s n i
    · rw [if_pos ⟨hi, hj, ge_of_eq heq, hpos⟩, if_pos ⟨hpos, heq⟩]
    · rw [if_neg (fun hq => heq (le_antisymm (le_rowStat s n i j hj) hq.2.2.1)),
        if_neg (fun hq => heq hq.2)]
  · rw [if_neg (fun hq => hpos hq.2.2.2), if_neg (fun hq => hpos hq.1)]

/-- C7: in every recognized-regime violation scan, for each row `i`: the
entries newly marked 1 are exactly the columns `j` achieving the row's
(positive) maximum violation score — all tied maximizers, not just one — and
when the row's maximum is not positive no entry of the row changes; the same
holds for the weak-disposability scan on its own matrix. -/
theorem c7_row_maximizers_marked (rts fn : String) (A : ScanArgs) (m : GMats)
    (hr : rts = RTS_VRS ∨ rts = RTS_CRS) (hf : fn = FUN_PROD ∨ fn = FUN_COST)
    (hn : 1 ≤ A.n) (i j : Nat) (hi : i < A.n) (hj : j < A.n) :
    ∃ v m', convergence_test rts fn A m = .ok (v, m') ∧
      m'.active i j =
        (if 0 < rowStat (concavScore rts fn A) A.n i ∧
            concavScore rts fn A i j = rowStat (concavScore rts fn A) A.n i
          then 1 else m.active i j) ∧
      ∃ v2 m2, convergence_test_weak rts fn A m = .ok (v2, m2) ∧
        m2.activeweak i j =
          (if 0 < rowStat (weakScore rts fn A) A.n i ∧
              weakScore rts fn A i j = rowStat (weakScore rts fn A) A.n i
            then 1 else m.activeweak i j) := by
  refine ⟨_, _, convergence_test_ok rts fn A m hr hf hn, ?_, _, _,
    convergence_test_weak_ok rts fn A m hr hf hn, ?_⟩
  · exact scanActiveResult_mark_iff (concavScore rts fn A) A.n m.active i j hi hj
  · exact scanActiveResult_mark_iff (weakScore rts fn A) A.n m.activeweak i j hi hj

/-- Witness for C7 at the concrete two-unit input `c1Args`, entry `(0, 1)`. -/
theorem c7_witness :
    ∃ v m', convergence_test RTS_VRS FUN_PROD c1Args zeroGMats = .ok (v, m') ∧
      m'.active 0 1 =
        (if 0 < rowStat (concavScore RTS_VRS FUN_PROD c1Args) c1Args.n 0 ∧
            concavScore RTS_VRS FUN_PROD c1Args 0 1 =
              rowStat (concavScore RTS_VRS FUN_PROD c1Args) c1Args.n 0
          then 1 else zeroGMats.active 0 1) ∧
      ∃ v2 m2, convergence_test_weak RTS_VRS FUN_PROD c1Args zeroGMats =
          .ok (v2, m2) ∧
        m2.activeweak 0 1 =
          (if 0 < rowStat (weakScore RTS_VRS FUN_PROD c1Args) c1Args.n 0 ∧
              weakScore RTS_VRS FUN_PROD c1Args 0 1 =
                rowStat (weakScore RTS_VRS FUN_PROD c1Args) c1Args.n 0
            then 1 else zeroGMats.activeweak 0 1) :=
  c7_row_maximizers_marked RTS_VRS FUN_PROD c1Args zeroGMats (Or.inl rfl)
    (Or.inl rfl) (by decide) 0 1 (by decide) (by decide)

/-- C3: across the run of `optimize`, entries of the active-constraint matrix
and of the weak-disposability active matrix only ever flip from 0 to 1 and
are never reset: an entry equal to 1 after `t` evaluations of the loop
condition is still 1 after `t + 1`, for any data, regime, solve oracle and
starting matrices. -/
theorem c3_active_entries_monotone (rts fn : String) (n k l : Nat) (x b : Mat)
    (oracle : Nat → Fitted) (m0 : GMats) (t a c a2 c2 : Nat)
    (h1 : (optMats rts fn n k l x b oracle m0 t).active a c = 1)
    (h2 : (optMats rts fn n k l x b oracle m0 t).activeweak a2 c2 = 1) :
    (optMats rts fn n k l x b oracle m0 (t + 1)).active a c = 1 ∧
      (optMats rts fn n k l x b oracle m0 (t + 1)).activeweak a2 c2 = 1 := by
  have hs := optStep_inv rts fn n k l x b oracle t
    (optMats rts fn n k l x b oracle m0 t)
  exact ⟨hs.1 a c h1, hs.2 a2 c2 h2⟩

/-- Witness for C3: entries set at iteration 0 survive into iteration 1. -/
theorem c3_witness :
    (optMats RTS_VRS FUN_PROD 1 0 0 zeroMat zeroMat zeroOracle onesGMats
      1).active 0 0 = 1 ∧
      (optMats RTS_VRS FUN_PROD 1 0 0 zeroMat zeroMat zeroOracle onesGMats
        1).activeweak 0 0 = 1 :=
  c3_active_entries_monotone RTS_VRS FUN_PROD 1 0 0 zeroMat zeroMat zeroOracle
    onesGMats 0 0 0 0 0 rfl rfl

/-- Counterexample to C4 as stated: on `c4Args` the concavity statistic (6)
exceeds the tolerance, so Python's short-circuit `or` never evaluates
`__convergence_test_weak`: the loop condition comes back `(continue, weak
evaluated?) = (true, false)` and the weak active matrix still holds 0 at
`(0, 0)`, even though recomputing the weak statistic from the same fitted
values would have marked that entry 1. So it is not the case that both
statistics are recomputed after each solve. -/
theorem c4_counterexample :
    condOf (loopCond RTS_VRS FUN_PROD c4Args zeroGMats) = some (true, false) ∧
      weakEntry (condMats (loopCond RTS_VRS FUN_PROD c4Args zeroGMats)) 0 0 =
        some 0 ∧
      weakEntry ((condMats (loopCond RTS_VRS FUN_PROD c4Args zeroGMats)).bind
        (fun m1 => matsOf (convergence_test_weak RTS_VRS FUN_PROD c4Args m1)))
        0 0 = some 1 := by
  refine ⟨?_, ?_, ?_⟩ <;> with_unfolding_all decide

/-- C4 amended: after each solve the concavity statistic is recomputed, and
the weak-disposability statistic is recomputed only when the concavity
statistic does not exceed the tolerance (short-circuit `or`); the outer loop
performs another rebuild-and-solve iteration if and only if at least one of
the two statistic values exceeds `1e-4`. -/
theorem c4_loop_iff_statistic_exceeds_tol (rts fn : String) (A : ScanArgs)
    (m : GMats) (hr : rts = RTS_VRS ∨ rts = RTS_CRS)
    (hf : fn = FUN_PROD ∨ fn = FUN_COST) (hn : 1 ≤ A.n) :
    ∃ cont wk m', loopCond rts fn A m = .ok (cont, wk, m') ∧
      (cont = true ↔
        (1 / 10000 < rowStat (concavScore rts fn A) A.n (A.n - 1) ∨
          1 / 10000 < rowStat (weakScore rts fn A) A.n (A.n - 1))) ∧
      (wk = true ↔
        rowStat (concavScore rts fn A) A.n (A.n - 1) ≤ 1 / 10000) := by
  obtain ⟨m1, hct⟩ : ∃ m1, convergence_test rts fn A m =
      .ok (rowStat (concavScore rts fn A) A.n (A.n - 1), m1) :=
    ⟨_, convergence_test_ok rts fn A m hr hf hn⟩
  obtain ⟨m2, hwt⟩ : ∃ m2, convergence_test_weak rts fn A m1 =
      .ok (rowStat (weakScore rts fn A) A.n (A.n - 1), m2) :=
    ⟨_, convergence_test_weak_ok rts fn A m1 hr hf hn⟩
  rw [loopCond]
  simp only [hct]
  by_cases hv : rowStat (concavScore rts fn A) A.n (A.n - 1) > 1 / 10000
  · rw [if_pos hv]
    exact ⟨true, false, m1, rfl, iff_of_true rfl (Or.inl hv),
      iff_of_false (by simp) (not_le.mpr hv)⟩
  · rw [if_neg hv]
    simp only [hwt]
    refine ⟨_, true, m2, rfl, ?_, iff_of_true rfl (not_lt.mp hv)⟩
    rw [decide_eq_true_eq]
    exact ⟨fun h => Or.inr h, fun h => h.resolve_left hv⟩

/-- Witness for C4 (amended) at the concrete two-unit input `c4Args`. -/
theorem c4_witness :
    ∃ cont wk m', loopCond RTS_VRS FUN_PROD c4Args zeroGMats =
        .ok (cont, wk, m') ∧
      (cont = true ↔
        (1 / 10000 <
            rowStat (concavScore RTS_VRS FUN_PROD c4Args) c4Args.n
              (c4Args.n - 1) ∨
          1 / 10000 <
            rowStat (weakScore RTS_VRS FUN_PROD c4Args) c4Args.n
              (c4Args.n - 1))) ∧
      (wk = true ↔
        rowStat (concavScore RTS_VRS FUN_PROD c4Args) c4Args.n (c4Args.n - 1) ≤
          1 / 10000) :=
  c4_loop_iff_statistic_exceeds_tol RTS_VRS FUN_PROD c4Args zeroGMats
    (Or.inl rfl) (Or.inl rfl) (by decide)

/-- Counterexample to C5 as stated: with the unrecognized error-term flag
"quad", `weakCNLSxG1.__init__` does raise the configuration `ValueError`, but
only at the regression-constraint stage — the index sets, all five decision
variable blocks and the objective have already been created at that point,
so the error is NOT raised before any decision variables are created. -/
theorem c5_counterexample :
    xg1_init "quad" FUN_PROD RTS_VRS sampleXG1 =
      .error ([BuildStage.sets, BuildStage.vars, BuildStage.objective],
        BuildStage.regression, .valueError "Undefined model parameters.") ∧
      BuildStage.vars ∈
        [BuildStage.sets, BuildStage.vars, BuildStage.objective] := by
  refine ⟨?_, by decide⟩
  exact init_err_at_regression _ _ _ _ _ rfl

/-- C5 amended: an unrecognized (error-term, direction, returns-to-scale)
combination still makes `weakCNLSxG1.__init__` raise an error (a
configuration `ValueError` from the regression or log-constraint factory, or
a `NameError` when the Afriat rule with an unrecognized direction is first
invoked), but only after the decision variables are created, so a partially
built model (sets, variables, objective, earlier constraint blocks) exists at
the moment of the error. -/
theorem c5_unrecognized_errors_after_vars (cet fn rts : String) (d : XG1Data)
    (hn : 1 ≤ d.n)
    (hbad : ¬((cet = CET_ADDI ∨ cet = CET_MULT) ∧
      (fn = FUN_PROD ∨ fn = FUN_COST) ∧ (rts = RTS_VRS ∨ rts = RTS_CRS))) :
    ∃ done stage e, xg1_init cet fn rts d = .error (done, stage, e) ∧
      BuildStage.vars ∈ done := by
  by_cases hca : cet = CET_ADDI
  · subst hca
    by_cases hrv : rts = RTS_VRS
    · subst hrv
      have hfb : ¬(fn = FUN_PROD ∨ fn = FUN_COST) := fun hfo =>
        hbad ⟨Or.inl rfl, hfo, Or.inl rfl⟩
      have hop : funOperator fn = none := by
        rw [funOperator, if_neg (fun h => hfb (Or.inl h)),
          if_neg (fun h => hfb (Or.inr h))]
      obtain ⟨done, hd, hm⟩ := init_err_at_afriat CET_ADDI fn RTS_VRS d
        ⟨_, rfl, fun i => ⟨_, rfl⟩⟩
        (fun hcm => absurd hcm (by decide))
        ⟨_, rfl, by rw [show funOperator fn = none from hop]⟩ hn
      exact ⟨done, _, _, hd, hm⟩
    · by_cases hrc : rts = RTS_CRS
      · subst hrc
        have hfb : ¬(fn = FUN_PROD ∨ fn = FUN_COST) := fun hfo =>
          hbad ⟨Or.inl rfl, hfo, Or.inr rfl⟩
        have hop : funOperator fn = none := by
          rw [funOperator, if_neg (fun h => hfb (Or.inl h)),
            if_neg (fun h => hfb (Or.inr h))]
        obtain ⟨done, hd, hm⟩ := init_err_at_afriat CET_ADDI fn RTS_CRS d
          ⟨_, rfl, fun i => ⟨_, rfl⟩⟩
          (fun hcm => absurd hcm (by decide))
          ⟨_, rfl, by rw [show funOperator fn = none from hop]⟩ hn
        exact ⟨done, _, _, hd, hm⟩
      · have hre : regression_rule CET_ADDI rts d =
            .error (.valueError "Undefined model parameters.") := by
          rw [regression_rule, if_pos rfl, if_neg hrv, if_neg hrc]
        exact ⟨_, _, _, init_err_at_regression _ fn _ _ _ hre, by decide⟩
  · by_cases hcm : cet = CET_MULT
    · subst hcm
      by_cases hrv : rts = RTS_VRS
      · subst hrv
        have hfb : ¬(fn = FUN_PROD ∨ fn = FUN_COST) := fun hfo =>
          hbad ⟨Or.inr rfl, hfo, Or.inl rfl⟩
        have hop : funOperator fn = none := by
          rw [funOperator, if_neg (fun h => hfb (Or.inl h)),
            if_neg (fun h => hfb (Or.inr h))]
        obtain ⟨done, hd, hm⟩ := init_err_at_afriat CET_MULT fn RTS_VRS d
          ⟨_, rfl, fun i => ⟨_, rfl⟩⟩
          (fun _ => ⟨_, rfl, fun i => ⟨_, rfl⟩⟩)
          ⟨_, rfl, by rw [show funOperator fn = none from hop]⟩ hn
        exact ⟨done, _, _, hd, hm⟩
      · by_cases hrc : rts = RTS_CRS
        · subst hrc
          have hfb : ¬(fn = FUN_PROD ∨ fn = FUN_COST) := fun hfo =>
            hbad ⟨Or.inr rfl, hfo, Or.inr rfl⟩
          have hop : funOperator fn = none := by
            rw [funOperator, if_neg (fun h => hfb (Or.inl h)),
              if_neg (fun h => hfb (Or.inr h))]
          obtain ⟨done, hd, hm⟩ := init_err_at_afriat CET_MULT fn RTS_CRS d
            ⟨_, rfl, fun i => ⟨_, rfl⟩⟩
            (fun _ => ⟨_, rfl, fun i => ⟨_, rfl⟩⟩)
            ⟨_, rfl, by rw [show funOperator fn = none from hop]⟩ hn
          exact ⟨done, _, _, hd, hm⟩
        · have hle : log_rule CET_MULT rts d =
              .error (.valueError "Undefined model parameters.") := by
            rw [log_rule, if_pos rfl, if_neg hrv, if_neg hrc]
          exact ⟨_, _, _, init_err_at_logc fn rts d _ hle, by decide⟩
    · have hre : regression_rule cet rts d =
          .error (.valueError "Undefined model parameters.") := by
        rw [regression_rule, if_neg hca, if_neg hcm]
      exact ⟨_, _, _, init_err_at_regression _ fn _ _ _ hre, by decide⟩

/-- Witness for C5 (amended) at the unrecognized direction flag "circ". -/
theorem c5_witness :
    ∃ done stage e, xg1_init CET_ADDI "circ" RTS_CRS sampleXG1 =
        .error (done, stage, e) ∧ BuildStage.vars ∈ done :=
  c5_unrecognized_errors_after_vars CET_ADDI "circ" RTS_CRS sampleXG1
    (by decide) (by decide)

/-- Counterexample to C6 as stated: on a concrete two-unit dataset with the
fully recognized regime (additive, production, VRS), the disposability rule
is a single-index function while the constraint block is declared over `I×I`,
so building the block raises a `TypeError` under the positional rule-calling
convention — no weak-disposability constraint (let alone exactly one per
unit) is ever emitted, and `__init__` aborts at the disposability stage.
Moreover the rule body relates the intercept `alpha` of the cyclic-next unit
to the sum of unit `i`'s inputs, not the undesirable-output coefficients. -/
theorem c6_counterexample :
    disposability_rule RTS_VRS c6Data = .ok (.unary c6DispRule) ∧
      buildBlock (.unary c6DispRule) (twoDimIdx 2) = .error .typeError ∧
      xg1_init CET_ADDI FUN_PROD RTS_VRS c6Data =
        .error ([BuildStage.sets, BuildStage.vars, BuildStage.objective,
          BuildStage.regression, BuildStage.afriat],
          BuildStage.disposability, PyErr.typeError) := by
  refine ⟨rfl, rfl, rfl⟩

/-- C6 amended: for every recognized regime the disposability constraint
block is declared over all ordered pairs of units with a rule taking a single
unit index, so constructing it raises a `TypeError` and no weak-disposability
constraint is emitted; consequently `weakCNLSxG1.__init__` always fails at
the disposability stage (after the decision variables are created). -/
theorem c6_disposability_block_typeError (cet fn rts : String) (d : XG1Data)
    (hc : cet = CET_ADDI ∨ cet = CET_MULT) (hf : fn = FUN_PROD ∨ fn = FUN_COST)
    (hr : rts = RTS_VRS ∨ rts = RTS_CRS) (hn : 1 ≤ d.n) :
    (∃ f, disposability_rule rts d = .ok (PyRule.unary f) ∧
      buildBlock (PyRule.unary f) (twoDimIdx d.n) = .error .typeError) ∧
      ∃ done, xg1_init cet fn rts d =
        .error (done, BuildStage.disposability, PyErr.typeError) ∧
        BuildStage.vars ∈ done := by
  constructor
  · rcases hr with h | h <;> subst h
    · exact ⟨_, rfl, buildBlock_twoDim_unary _ _ hn⟩
    · exact ⟨_, rfl, buildBlock_twoDim_unary _ _ hn⟩
  · rcases hc with hc | hc <;> rcases hf with hf | hf <;>
      rcases hr with hr | hr <;> subst hc <;> subst hf <;> subst hr <;>
      exact init_err_at_disposability _ _ _ _
        ⟨_, rfl, fun i => ⟨_, rfl⟩⟩
        (by first
          | exact fun hcm => absurd hcm (by decide)
          | exact fun _ => ⟨_, rfl, fun i => ⟨_, rfl⟩⟩)
        ⟨_, rfl, fun i => ⟨_, rfl⟩⟩
        ⟨_, rfl⟩ hn

/-- Witness for C6 (amended) on the single-unit dataset with the
multiplicative/cost/CRS regime. -/
theorem c6_witness :
    (∃ f, disposability_rule RTS_CRS sampleXG1 = .ok (PyRule.unary f) ∧
      buildBlock (PyRule.unary f) (twoDimIdx sampleXG1.n) =
        .error .typeError) ∧
      ∃ done, xg1_init CET_MULT FUN_COST RTS_CRS sampleXG1 =
        .error (done, BuildStage.disposability, PyErr.typeError) ∧
        BuildStage.vars ∈ done :=
  c6_disposability_block_typeError CET_MULT FUN_COST RTS_CRS sampleXG1
    (Or.inr rfl) (Or.inr rfl) (Or.inr rfl) (by decide)
